import Mathlib

/-!
Shallow embedding of the Talk-to-book-chat stage-transition state machine
(`apps/api/src/agents/multi_agent_system.py`), the agent-config loader cache
(`apps/api/src/agents/loader.py` / `get_agent_configs`), and the streaming
chat endpoint's event generator (`apps/api/src/routes/chat.py`).

The language-model invocation is opaque: each stage node takes the reply the
model would produce for this call as an explicit `resp : String` argument, and
records in its result whether it made a model call at all.
-/

namespace TalkToBook

set_option maxRecDepth 8192

/-- Role tag of a chat message (`HumanMessage` vs `AIMessage`). -/
inductive Role where
  | user
  | assistant
deriving DecidableEq, Repr

/-- One entry of the conversation history. -/
structure ChatMessage where
  role : Role
  content : String
deriving DecidableEq, Repr

/-- Python truthiness of `state.get(field)` for an optional string field:
`False` when the key is absent or the value is the empty string. -/
def optTruthy (o : Option String) : Bool :=
  match o with
  | none => false
  | some s => s != ""

/-- Helper for `wordCount`: counts maximal runs of non-whitespace characters;
the flag records whether the previous character was inside a word. -/
def wordsAux : List Char → Bool → Nat
  | [], _ => 0
  | c :: rest, inWord =>
    if c.isWhitespace then wordsAux rest false
    else (if inWord then 0 else 1) + wordsAux rest true

/-- Python `len(s.split())`: number of maximal non-empty whitespace-separated
words of `s`. -/
def wordCount (s : String) : Nat := wordsAux s.toList false

/-- ASCII lowering of one character (Python `str.lower` restricted to the
ASCII range, which is all the keyword matching in the source relies on). -/
def lowerChar (c : Char) : Char :=
  if 'A' ≤ c ∧ c ≤ 'Z' then Char.ofNat (c.toNat + 32) else c

/-- Python `s.lower()` (ASCII range). -/
def strToLower (s : String) : String := String.mk (s.toList.map lowerChar)

/-- Python `len(s)` (count of characters). -/
def strLen (s : String) : Nat := s.toList.length

/-- `needle` occurs at the head of `hay` (as a character list). -/
def prefixAt : List Char → List Char → Bool
  | [], _ => true
  | _ :: _, [] => false
  | a :: as, b :: bs => a == b && prefixAt as bs

/-- `needle` occurs somewhere inside `hay` (as a character list). -/
def hasSubList (needle : List Char) : List Char → Bool
  | [] => needle.isEmpty
  | b :: bs => prefixAt needle (b :: bs) || hasSubList needle bs

/-- Python `needle in hay` on strings: substring containment. -/
def strContains (hay needle : String) : Bool :=
  hasSubList needle.toList hay.toList

/-- Python `sep.join(l)`. -/
def joinSep (sep : String) : List String → String
  | [] => ""
  | [a] => a
  | a :: b :: rest => a ++ sep ++ joinSep sep (b :: rest)

/-- Python `l[-n:]`. -/
def lastN (n : Nat) (l : List ChatMessage) : List ChatMessage :=
  l.drop (l.length - n)

/-- `BookAgentState` (`TypedDict, total=False`): every key optional; a `none`
field models an absent key. -/
structure BookAgentState where
  active_agent : Option String := none
  book_name : Option String := none
  author_name : Option String := none
  author_bio : Option String := none
  book_theme : Option String := none
  audience_profile : Option String := none
  audience_questions_asked : Option Nat := none
  wants_title_suggestions : Option Bool := none
  final_title : Option String := none
  book_plan : Option String := none
  messages : List ChatMessage := []
  stage : Option String := none
  waiting_for_user : Option Bool := none
deriving DecidableEq, Repr

/-- The empty state of a fresh conversation thread. -/
def initState : BookAgentState := {}

/-- Graph node identifiers of the five stage nodes. -/
inductive Node where
  | biographer
  | empath
  | title_generator
  | planner
  | writer
deriving DecidableEq, Repr

/-- Result of running one stage node: the updated state (the node's `update`
dict merged into the input state, with `messages` appended via `operator.add`),
the `goto` target (`none` models `goto=END`), and whether `model.invoke` ran. -/
structure NodeResult where
  state : BookAgentState
  goto : Option Node
  calledModel : Bool
deriving Repr

/-- `next((m.content for m in reversed(messages) if isinstance(m, HumanMessage)), "")`. -/
def last_user_message (msgs : List ChatMessage) : String :=
  match msgs.reverse.find? (fun m => m.role == Role.user) with
  | some m => m.content
  | none => ""

/-- Hand-off message text emitted by `biographer_node`. -/
def toEmpathText : String := "🔄 Connecting with **Empath specialist** for audience profiling..."

/-- Hand-off message text emitted by `empath_node`. -/
def toTitleText : String := "🔄 Connecting with **Title Generator**..."

/-- Hand-off message text emitted by `title_generator_node`. -/
def toPlannerText : String := "🔄 Connecting with **Planner** for book structure..."

/-- Hand-off message text emitted by `planner_node`. -/
def toWriterText : String := "🔄 Connecting with **Writer** for content creation..."

/-- `biographer_node`: collects book name, author name, author bio and book
theme, in that order, from the latest user message; hands off to `empath` once
all four are set. -/
def biographer_node (resp : String) (s : BookAgentState) : NodeResult :=
  let has_book_name := optTruthy s.book_name
  let has_author_name := optTruthy s.author_name
  let has_author_bio := optTruthy s.author_bio
  let has_book_theme := optTruthy s.book_theme
  if has_book_name && has_author_name && has_author_bio && has_book_theme then
    { state := { s with
        messages := s.messages ++ [⟨Role.assistant, toEmpathText⟩],
        active_agent := some "Empath",
        stage := some "empath" },
      goto := some Node.empath,
      calledModel := false }
  else
    let lum := last_user_message s.messages
    let s1 := { s with
      messages := s.messages ++ [⟨Role.assistant, resp⟩],
      active_agent := some "Biographer",
      stage := some "biographer" }
    let s2 :=
      if !has_book_name ∧ wordCount lum > 0 then
        { s1 with book_name := some lum }
      else if !has_author_name ∧ has_book_name ∧ wordCount lum > 0 then
        { s1 with author_name := some lum }
      else if !has_author_bio ∧ has_author_name ∧ wordCount lum > 5 then
        { s1 with author_bio := some lum }
      else if !has_book_theme ∧ has_author_bio ∧ wordCount lum > 3 then
        { s1 with book_theme := some lum }
      else s1
    { state := s2, goto := none, calledModel := true }

/-- `empath_node`: counts qualifying audience answers (up to 3) and, when the
count reaches 3, synthesizes `audience_profile` from the user messages among
the last 6 history entries; hands off to `title_generator` once the profile is
set. -/
def empath_node (resp : String) (s : BookAgentState) : NodeResult :=
  let audience_questions_asked := s.audience_questions_asked.getD 0
  let has_audience_profile := optTruthy s.audience_profile
  if has_audience_profile then
    { state := { s with
        messages := s.messages ++ [⟨Role.assistant, toTitleText⟩],
        active_agent := some "Title Generator",
        stage := some "title_generator" },
      goto := some Node.title_generator,
      calledModel := false }
  else
    let s1 := { s with
      messages := s.messages ++ [⟨Role.assistant, resp⟩],
      active_agent := some "Empath",
      stage := some "empath" }
    let lum := last_user_message s.messages
    if audience_questions_asked < 3 ∧ wordCount lum > 5 then
      let newCount := audience_questions_asked + 1
      let s2 := { s1 with audience_questions_asked := some newCount }
      let s3 :=
        if newCount ≥ 3 then
          { s2 with audience_profile := some (joinSep " | "
              (((lastN 6 s.messages).filter (fun m => m.role == Role.user)).map
                (fun m => m.content))) }
        else s2
      { state := s3, goto := none, calledModel := true }
    else
      { state := s1, goto := none, calledModel := true }

/-- Keyword lists of `title_generator_node` (Python literal lists). -/
def yesWords : List String := ["yes", "yeah", "sure", "ok", "okay", "please", "would like"]

/-- Negative-answer keyword list of `title_generator_node`. -/
def noWords : List String := ["no", "nope", "not", "don\x27t"]

/-- Title-selection keyword list of `title_generator_node`. -/
def selectWords : List String := ["option", "choose", "select", "pick", "like", "prefer"]

/-- `title_generator_node`: tri-state `wants_title_suggestions` flag; hands off
to `planner` once `final_title` is set, or immediately (auto-setting
`final_title` from the working title) when the flag is `False`. -/
def title_generator_node (resp : String) (s : BookAgentState) : NodeResult :=
  let wants_title_suggestions := s.wants_title_suggestions
  let has_final_title := optTruthy s.final_title
  if has_final_title then
    { state := { s with
        messages := s.messages ++ [⟨Role.assistant, toPlannerText⟩],
        active_agent := some "Planner",
        stage := some "planner" },
      goto := some Node.planner,
      calledModel := false }
  else if wants_title_suggestions == some false then
    let working_title := s.book_name.getD "Untitled"
    { state := { s with
        messages := s.messages ++ [⟨Role.assistant, toPlannerText⟩],
        active_agent := some "Planner",
        stage := some "planner",
        final_title := some working_title },
      goto := some Node.planner,
      calledModel := false }
  else
    let s1 := { s with
      messages := s.messages ++ [⟨Role.assistant, resp⟩],
      active_agent := some "Title Generator",
      stage := some "title_generator" }
    let lum := last_user_message s.messages
    let s2 :=
      if wants_title_suggestions == none ∧ lum != "" then
        if yesWords.any (fun w => strContains (strToLower lum) w) then
          { s1 with wants_title_suggestions := some true }
        else if noWords.any (fun w => strContains (strToLower lum) w) then
          { s1 with wants_title_suggestions := some false }
        else s1
      else s1
    let s3 :=
      if wants_title_suggestions == some true ∧ lum != "" then
        if selectWords.any (fun w => strContains (strToLower lum) w)
            || lum.toList.any Char.isDigit then
          { s2 with final_title := some lum }
        else s2
      else s2
    { state := s3, goto := none, calledModel := true }

/-- The predicate `isinstance(m, AIMessage) and len(m.content) > 100` used by
`planner_node` to find the last substantial assistant message. -/
def substantialAI (m : ChatMessage) : Bool :=
  m.role == Role.assistant && decide (strLen m.content > 100)

/-- The approval test of `planner_node`: `"approve" in lum.lower() or
"looks good" in lum.lower() or "yes" in lum.lower()`. -/
def approvalKeyword (lum : String) : Bool :=
  strContains (strToLower lum) "approve" || strContains (strToLower lum) "looks good"
    || strContains (strToLower lum) "yes"

/-- `planner_node`: on an approval keyword in the latest user message, captures
`book_plan` from the most recent assistant message longer than 100 characters;
hands off to `writer` once `book_plan` is set. -/
def planner_node (resp : String) (s : BookAgentState) : NodeResult :=
  let has_book_plan := optTruthy s.book_plan
  if has_book_plan then
    { state := { s with
        messages := s.messages ++ [⟨Role.assistant, toWriterText⟩],
        active_agent := some "Writer",
        stage := some "writer" },
      goto := some Node.writer,
      calledModel := false }
  else
    let s1 := { s with
      messages := s.messages ++ [⟨Role.assistant, resp⟩],
      active_agent := some "Planner",
      stage := some "planner" }
    let lum := last_user_message s.messages
    if approvalKeyword lum then
      let plan_message :=
        (((s.messages.reverse.find? substantialAI).map (fun m => m.content)).getD "")
      { state := { s1 with book_plan := some plan_message },
        goto := none, calledModel := true }
    else
      { state := s1, goto := none, calledModel := true }

/-- `writer_node`: always calls the model; sets the terminal stage when the
latest user message contains a completion keyword. -/
def writer_node (resp : String) (s : BookAgentState) : NodeResult :=
  let s1 := { s with
    messages := s.messages ++ [⟨Role.assistant, resp⟩],
    active_agent := some "Writer",
    stage := some "writer" }
  let lum := last_user_message s.messages
  let s2 :=
    if strContains (strToLower lum) "complete" || strContains (strToLower lum) "finished" then
      { s1 with stage := some "complete" }
    else s1
  { state := s2, goto := none, calledModel := true }

/-- Dispatch a node identifier to its stage function. -/
def execNode : Node → String → BookAgentState → NodeResult
  | Node.biographer, resp, s => biographer_node resp s
  | Node.empath, resp, s => empath_node resp s
  | Node.title_generator, resp, s => title_generator_node resp s
  | Node.planner, resp, s => planner_node resp s
  | Node.writer, resp, s => writer_node resp s

/-- `route_entry`: `state.get("stage", "biographer")`. -/
def route_entry (s : BookAgentState) : String :=
  s.stage.getD "biographer"

/-- The conditional-entry-point mapping passed to
`workflow.set_conditional_entry_point`: `some (some n)` selects node `n`,
`some none` is the explicit `"complete" -> END` entry, and `none` means the
routed string matches no entry of the mapping. -/
def stage_entry_map (stage : String) : Option (Option Node) :=
  if stage == "biographer" then some (some Node.biographer)
  else if stage == "empath" then some (some Node.empath)
  else if stage == "title_generator" then some (some Node.title_generator)
  else if stage == "planner" then some (some Node.planner)
  else if stage == "writer" then some (some Node.writer)
  else if stage == "complete" then some none
  else none

/-- Run the `goto` chain starting at node `n`: execute the node, and while it
issues `goto` to a successor, continue there.  `oracle` supplies the model
reply for each successive model call; returns the final state and the number
of nodes executed.  Fuel bounds the recursion (the chain length never comes
close to it). -/
def runChain : Nat → Node → List String → BookAgentState → BookAgentState × Nat
  | 0, _, _, s => (s, 0)
  | fuel + 1, n, oracle, s =>
    let r := execNode n (oracle.headD "") s
    let rest := if r.calledModel then oracle.tail else oracle
    match r.goto with
    | none => (r.state, 1)
    | some n2 =>
      let p := runChain fuel n2 rest r.state
      (p.1, p.2 + 1)

/-- One inbound turn: append the user's message to the history, route on the
stage field, and run the selected node's `goto` chain.  Returns the final
state and the number of stage nodes executed this turn. -/
def runTurn (u : String) (oracle : List String) (s : BookAgentState) :
    BookAgentState × Nat :=
  let s0 := { s with messages := s.messages ++ [⟨Role.user, u⟩] }
  match stage_entry_map (route_entry s0) with
  | some (some n) => runChain 10 n oracle s0
  | some none => (s0, 0)
  | none => (s0, 0)

/-! ### Agent-config loader and its process-global cache
(`loader.py` / `multi_agent_system.get_agent_configs`) -/

/-- One row of the prompt store, as packaged by `load_agent_configs`. -/
structure AgentConfig where
  prompt : String
  description : String
deriving DecidableEq, Repr

/-- `configs.get(name, {})`-style lookup on the loaded config dictionary
(keyed by lowercase agent name). -/
def configsGet (cfgs : List (String × AgentConfig)) (k : String) : Option AgentConfig :=
  (cfgs.find? (fun p => p.1 == k)).map (fun p => p.2)

/-- `load_agent_configs`: queries the store and returns its current contents
(the store itself is modelled as the mapping it would produce at call time). -/
def load_agent_configs (store : List (String × AgentConfig)) :
    List (String × AgentConfig) := store

/-- `get_agent_configs` with the module-global `_agent_configs_cache` made
explicit: given the cache cell's current contents and the store's current
contents, returns the configs used this turn and the cache cell afterwards.
The cache is populated on first use and never invalidated. -/
def get_agent_configs (cache : Option (List (String × AgentConfig)))
    (store : List (String × AgentConfig)) :
    List (String × AgentConfig) × Option (List (String × AgentConfig)) :=
  match cache with
  | some c => (c, some c)
  | none => (load_agent_configs store, some (load_agent_configs store))

/-- The hard-coded fallback prompt of `biographer_node` (the default of
`biographer_config.get("prompt", ...)`). -/
def biographerDefaultPrompt : String :=
  "\nYou are the Biographer agent for Talk2Publish. Your role is to collect essential information about the book and author.\n\n**Your responsibilities:**\n1. Greet the user warmly and introduce the Talk2Publish system\n2. Ask for the internal/working book name (explain this is temporary and will be refined later)\n3. Ask for the author\x27s name\n4. Ask for a brief author bio (2-3 sentences)\n5. Ask for the book theme (what key topics or themes will the book cover?)\n\n**Guidelines:**\n- Be conversational and friendly\n- Ask ONE question at a time\n- Validate that information is provided before moving on\n- Once you have all FOUR pieces of information, announce transition to Empath\n\n**When you have all information, say:**\n\"Perfect! I have all the essential details. Let me connect you with our Empath specialist who will help define your target audience.\"\n"

/-- The system prompt `biographer_node` puts in front of the history:
`agent_configs.get("biographer", {}).get("prompt", <fallback>)`. -/
def biographer_system_prompt (cfgs : List (String × AgentConfig)) : String :=
  match configsGet cfgs "biographer" with
  | some c => c.prompt
  | none => biographerDefaultPrompt

/-- The model input built by `biographer_node` for one turn:
`[SystemMessage(system_prompt)] + state.messages`. -/
def biographer_model_input (cfgs : List (String × AgentConfig))
    (s : BookAgentState) : String × List ChatMessage :=
  (biographer_system_prompt cfgs, s.messages)

/-! ### Streaming chat endpoint (`routes/chat.py` / `chat_stream`) -/

/-- `detect_agent_from_content`: pattern-matches message content to attribute
it to a specialist. -/
def detect_agent_from_content (content : String) (dflt : String := "Orchestrator") :
    String :=
  let content_lower := strToLower content
  if strContains content_lower "empath specialist"
      || strContains content_lower "connect you with our empath" then "Empath"
  else if strContains content_lower "planner specialist"
      || strContains content_lower "bring in our planner" then "Planner"
  else if (["book name:", "author name:", "author bio:"].any
        (fun keyword => strContains content_lower keyword))
      && (strContains content_lower "**author bio:**"
        || strContains content_lower "**author name:**") then "Biographer"
  else if strContains content_lower "**audience profile:**" then "Orchestrator"
  else if strContains content_lower "**final title:**"
      || (strContains content_lower "title"
        && ["1.", "2.", "3.", "4.", "5."].any (fun num => strContains content num)) then
    "Orchestrator"
  else if ["who is your ideal reader", "target audience", "reader\x27s pain",
      "reader needs"].any (fun q => strContains content_lower q) then "Empath"
  else dflt

/-- A message as seen by the streaming endpoint (LangChain message object:
type tag, content, optional explicit agent name). -/
structure StreamMsg where
  role : Role
  content : String
  name : Option String := none
deriving DecidableEq, Repr

/-- The typed server-sent events of the streaming protocol.  `transition` is
the specialist-change event named by the interface description; the other
three are the payload shapes `chat_stream` builds (`type` field values
`"message"`, `"done"`, `"error"`). -/
inductive SSEEvent where
  | message (role content agent thread_id : String)
  | done (thread_id : String)
  | error (msg : String)
  | transition (fromAgent toAgent : String)
deriving DecidableEq, Repr

/-- The `type` discriminator string of an SSE event. -/
def eventType : SSEEvent → String
  | SSEEvent.message _ _ _ _ => "message"
  | SSEEvent.done _ => "done"
  | SSEEvent.error _ => "error"
  | SSEEvent.transition _ _ => "transition"

/-- The agent a `message` event is attributed to, if any. -/
def eventAgent : SSEEvent → Option String
  | SSEEvent.message _ _ agent _ => some agent
  | _ => none

/-- The body of `chat_stream`'s per-snapshot loop: with `stream_mode="values"`
each stream event carries the full message list; the latest message is
inspected and, when it is an assistant message, a `message` event is emitted
with an explicit or content-detected agent name. -/
def streamEventOf (thread_id : String) (snapshot : List StreamMsg) :
    Option SSEEvent :=
  match snapshot.getLast? with
  | none => none
  | some latest_msg =>
    let role := match latest_msg.role with
      | Role.assistant => "assistant"
      | Role.user => "user"
    let agent_name : Option String :=
      match latest_msg.name with
      | some n => some n
      | none =>
        if role == "assistant" then
          some (detect_agent_from_content latest_msg.content "Orchestrator")
        else none
    if role == "assistant" then
      some (SSEEvent.message role latest_msg.content
        (agent_name.getD "Orchestrator") thread_id)
    else none

/-- The full (non-failing) event sequence produced by `chat_stream`'s
`event_generator`: one optional `message` event per orchestrator snapshot,
then the completion `done` event. -/
def chat_stream_events (thread_id : String) (snapshots : List (List StreamMsg)) :
    List SSEEvent :=
  (snapshots.filterMap (streamEventOf thread_id)) ++ [SSEEvent.done thread_id]

/-! ### General helper lemmas -/

/-- `find?` hit decomposition: the list splits at the found element, and
everything before it fails the predicate. -/
theorem find?_some_decomp {α : Type} (p : α → Bool) (l : List α) (m : α)
    (h : l.find? p = some m) :
    p m = true ∧ ∃ l1 l2, l = l1 ++ m :: l2 ∧ ∀ x ∈ l1, p x = false := by
  induction l with
  | nil => simp at h
  | cons a t ih =>
    by_cases ha : p a = true
    · rw [List.find?_cons_of_pos _ ha] at h
      obtain rfl : a = m := by simpa using h
      exact ⟨ha, [], t, rfl, by simp⟩
    · rw [List.find?_cons_of_neg _ (by simpa using ha)] at h
      obtain ⟨hpm, l1, l2, hl, hall⟩ := ih h
      refine ⟨hpm, a :: l1, l2, by rw [hl]; rfl, ?_⟩
      intro x hx
      rcases List.mem_cons.mp hx with rfl | hx
      · simpa using ha
      · exact hall x hx

/-- `find?` over the reversed list: decomposition with a predicate-free
suffix (the found element is the LAST hit of the original list). -/
theorem find?_reverse_decomp {α : Type} (p : α → Bool) (l : List α) (m : α)
    (h : l.reverse.find? p = some m) :
    p m = true ∧ ∃ l1 l2, l = l1 ++ m :: l2 ∧ ∀ x ∈ l2, p x = false := by
  obtain ⟨hpm, L1, L2, hl, hall⟩ := find?_some_decomp p l.reverse m h
  refine ⟨hpm, L2.reverse, L1.reverse, ?_, ?_⟩
  · have h2 := congrArg List.reverse hl
    simp only [List.reverse_reverse, List.reverse_append, List.reverse_cons] at h2
    rw [h2]; simp
  · intro x hx
    exact hall x (by simpa using hx)

/-- One chain step that ends: the node returns `goto=END`. -/
theorem runChain_stop (fuel : Nat) (n : Node) (oracle : List String) (s : BookAgentState)
    (h : (execNode n (oracle.headD "") s).goto = none) :
    runChain (fuel + 1) n oracle s = ((execNode n (oracle.headD "") s).state, 1) := by
  simp only [runChain, h]

/-- One chain step that hands off to a successor node. -/
theorem runChain_step (fuel : Nat) (n : Node) (oracle : List String) (s : BookAgentState)
    (n2 : Node) (h : (execNode n (oracle.headD "") s).goto = some n2) :
    runChain (fuel + 1) n oracle s =
      ((runChain fuel n2 (if (execNode n (oracle.headD "") s).calledModel then
          oracle.tail else oracle) (execNode n (oracle.headD "") s).state).1,
       (runChain fuel n2 (if (execNode n (oracle.headD "") s).calledModel then
          oracle.tail else oracle) (execNode n (oracle.headD "") s).state).2 + 1) := by
  simp only [runChain, h]

/-- Entry-map lookups at the six recognized stage values. -/
theorem sem_biographer : stage_entry_map "biographer" = some (some Node.biographer) := rfl

/-- Entry-map lookup at `"empath"`. -/
theorem sem_empath : stage_entry_map "empath" = some (some Node.empath) := rfl

/-- Entry-map lookup at `"title_generator"`. -/
theorem sem_title : stage_entry_map "title_generator" = some (some Node.title_generator) := rfl

/-- Entry-map lookup at `"planner"`. -/
theorem sem_planner : stage_entry_map "planner" = some (some Node.planner) := rfl

/-- Entry-map lookup at `"writer"`. -/
theorem sem_writer : stage_entry_map "writer" = some (some Node.writer) := rfl

/-- Entry-map lookup at `"complete"`. -/
theorem sem_complete : stage_entry_map "complete" = some none := rfl

/-- A turn whose routed stage selects node `n` runs that node's chain on the
state extended with the inbound user message. -/
theorem runTurn_eq (u : String) (oracle : List String) (s : BookAgentState) (n : Node)
    (h : stage_entry_map (route_entry s) = some (some n)) :
    runTurn u oracle s =
      runChain 10 n oracle { s with messages := s.messages ++ [⟨Role.user, u⟩] } := by
  have hr : route_entry { s with messages := s.messages ++ [⟨Role.user, u⟩] } =
      route_entry s := rfl
  simp only [runTurn, hr, h]

/-- While `book_plan` is untruthy, the planner node waits for the user and
stays in the planning stage. -/
theorem planner_stay (resp : String) (s : BookAgentState)
    (hp : optTruthy s.book_plan = false) :
    (planner_node resp s).goto = none ∧
    (planner_node resp s).state.stage = some "planner" := by
  simp only [planner_node, hp, Bool.false_eq_true, if_false]
  split <;> simp

/-! ### C4: prompt hot-reload -/

/-- A store state with version-1 prompt content. -/
def storeV1 : List (String × AgentConfig) := [("biographer", ⟨"PROMPT-V1", "d"⟩)]

/-- The same store after its biographer prompt was updated. -/
def storeV2 : List (String × AgentConfig) := [("biographer", ⟨"PROMPT-V2", "d"⟩)]

/-- C4 counterexample: two turns without a restart, the store's biographer
prompt changes from PROMPT-V1 to PROMPT-V2 in between; the second turn's
model input still carries PROMPT-V1 because `get_agent_configs` serves the
cache populated on the first turn, so the claim that the later turn is built
from the updated prompt text is false. -/
theorem c4_counterexample :
    (biographer_model_input (get_agent_configs (get_agent_configs none storeV1).2 storeV2).1
        initState).1 = "PROMPT-V1" ∧
    (biographer_model_input (load_agent_configs storeV2) initState).1 = "PROMPT-V2" ∧
    "PROMPT-V1" ≠ "PROMPT-V2" := by
  refine ⟨rfl, rfl, by decide⟩

/-- C4 (amended): `get_agent_configs` loads the store exactly once; once the
module-global cache holds a value, every later turn uses that cached value and
the store's current contents are ignored until a process restart clears the
cache. -/
theorem c4_stale_cache (c store : List (String × AgentConfig)) :
    (get_agent_configs (some c) store).1 = c ∧
    (get_agent_configs none store).1 = load_agent_configs store ∧
    (get_agent_configs (some c) store).2 = some c :=
  ⟨rfl, rfl, rfl⟩

/-! ### C9: routing -/

/-- C9 counterexample: on a state whose `stage` holds the unrecognized value
`"bogus"`, `route_entry` returns `"bogus"` — not `"biographer"` — and the
conditional-entry mapping has no entry for it, so no node (in particular not
the biographer node) is selected; the claim that an unrecognized stage value
routes to the profiling node is false. -/
theorem c9_counterexample :
    route_entry { initState with stage := some "bogus" } = "bogus" ∧
    route_entry { initState with stage := some "bogus" } ≠ "biographer" ∧
    stage_entry_map (route_entry { initState with stage := some "bogus" }) = none ∧
    stage_entry_map "biographer" = some (some Node.biographer) := by
  refine ⟨rfl, by decide, rfl, rfl⟩

/-- C9 (amended): routing is a pure lookup of `state.stage` that returns the
stage value itself, defaulting to the biographer node only when the field is
absent; each recognized value selects its namesake node, `"complete"` maps to
the terminal END entry, and an unrecognized value matches no entry of the
mapping at all (instead of falling back to profiling). -/
theorem c9_route_lookup (s : BookAgentState) :
    (s.stage = none → route_entry s = "biographer") ∧
    (∀ v, s.stage = some v → route_entry s = v) ∧
    stage_entry_map "biographer" = some (some Node.biographer) ∧
    stage_entry_map "empath" = some (some Node.empath) ∧
    stage_entry_map "title_generator" = some (some Node.title_generator) ∧
    stage_entry_map "planner" = some (some Node.planner) ∧
    stage_entry_map "writer" = some (some Node.writer) ∧
    stage_entry_map "complete" = some none ∧
    (∀ v, v ∉ ["biographer", "empath", "title_generator", "planner", "writer", "complete"] →
      stage_entry_map v = none) := by
  refine ⟨?_, ?_, rfl, rfl, rfl, rfl, rfl, rfl, ?_⟩
  · intro h; simp [route_entry, h]
  · intro v h; simp [route_entry, h]
  · intro v hv
    simp only [List.mem_cons, List.mem_singleton, not_or] at hv
    obtain ⟨h1, h2, h3, h4, h5, h6⟩ := hv
    simp [stage_entry_map, beq_iff_eq, h1, h2, h3, h4, h5, h6]

/-- C9 witness: the amended routing facts at two concrete states. -/
theorem c9_route_lookup_witness :
    route_entry initState = "biographer" ∧
    route_entry { initState with stage := some "planner" } = "planner" :=
  ⟨(c9_route_lookup initState).1 rfl,
   ((c9_route_lookup { initState with stage := some "planner" }).2.1) "planner" rfl⟩

/-! ### C2: streaming transition events -/

/-- Concrete orchestrator snapshots (`stream_mode="values"`) of a turn that
crosses profiling → audience: the user's reply, then the Biographer→Empath
hand-off message, then the Empath specialist's first reply. -/
def handoffSnapshots : List (List StreamMsg) :=
  [[⟨Role.user, "sales growth and leadership", none⟩],
   [⟨Role.user, "sales growth and leadership", none⟩,
    ⟨Role.assistant, toEmpathText, none⟩],
   [⟨Role.user, "sales growth and leadership", none⟩,
    ⟨Role.assistant, toEmpathText, none⟩,
    ⟨Role.assistant, "Who is the primary reader you have in mind?", none⟩]]

/-- C2 counterexample: on a turn whose snapshots cross the profiling→audience
hand-off, the stream contains a `message` event attributed to Empath but no
event whose type is `"transition"` at all — so no transition event precedes
the successor's message events, refuting the claim. -/
theorem c2_counterexample :
    ((chat_stream_events "t1" handoffSnapshots).any
      (fun e => eventAgent e == some "Empath")) = true ∧
    ((chat_stream_events "t1" handoffSnapshots).any
      (fun e => eventType e == "transition")) = false := by
  exact ⟨by decide, by decide⟩

/-- C2 (amended): the streaming endpoint never emits a `transition`-typed
event; a specialist change is observable only through `message` events (the
hand-off text attributed to the successor), and the terminal `done` event
follows all `message` events of the stream. -/
theorem c2_no_transition_events (thread_id : String)
    (snapshots : List (List StreamMsg)) :
    (∀ e ∈ chat_stream_events thread_id snapshots, eventType e ≠ "transition") ∧
    (∃ front, chat_stream_events thread_id snapshots = front ++ [SSEEvent.done thread_id] ∧
      ∀ e ∈ front, eventType e = "message") := by
  constructor
  · intro e he
    simp only [chat_stream_events, List.mem_append, List.mem_filterMap,
      List.mem_singleton] at he
    rcases he with ⟨snap, _, hs⟩ | rfl
    · unfold streamEventOf at hs
      rcases h : snap.getLast? with _ | latest
      · rw [h] at hs; simp at hs
      · rw [h] at hs
        simp only at hs
        split at hs
        · simp only [Option.some.injEq] at hs
          subst hs
          simp [eventType]
        · simp at hs
    · simp [eventType]
  · refine ⟨snapshots.filterMap (streamEventOf thread_id), rfl, ?_⟩
    intro e he
    simp only [List.mem_filterMap] at he
    obtain ⟨snap, _, hs⟩ := he
    unfold streamEventOf at hs
    rcases h : snap.getLast? with _ | latest
    · rw [h] at hs; simp at hs
    · rw [h] at hs
      simp only at hs
      split at hs
      · simp only [Option.some.injEq] at hs
        subst hs
        simp [eventType]
      · simp at hs

/-! ### C5: title auto-finalization -/

/-- C5: with `wants_title_suggestions == False`, a set working title `T`, and
`final_title` still unset, the very next execution of the title node sets
`final_title` to `T`, advances stage/specialist to the planner, and makes no
model call. -/
theorem c5_title_auto (s : BookAgentState) (resp T : String)
    (hw : s.wants_title_suggestions = some false)
    (hb : s.book_name = some T)
    (hf : optTruthy s.final_title = false) :
    (title_generator_node resp s).state.final_title = some T ∧
    (title_generator_node resp s).state.stage = some "planner" ∧
    (title_generator_node resp s).state.active_agent = some "Planner" ∧
    (title_generator_node resp s).goto = some Node.planner ∧
    (title_generator_node resp s).calledModel = false := by
  simp [title_generator_node, hw, hb, hf]

/-- A concrete title-stage state in which the user has declined suggestions. -/
def c5state : BookAgentState :=
  { initState with
      book_name := some "Draft One", author_name := some "Avery",
      author_bio := some "Coach for a decade helping teams grow fast",
      book_theme := some "growth in sales teams",
      wants_title_suggestions := some false,
      stage := some "title_generator" }

/-- C5 witness: the auto-finalization at a concrete declined-suggestions
state. -/
theorem c5_title_auto_witness :
    (title_generator_node "r" c5state).state.final_title = some "Draft One" ∧
    (title_generator_node "r" c5state).state.stage = some "planner" ∧
    (title_generator_node "r" c5state).state.active_agent = some "Planner" ∧
    (title_generator_node "r" c5state).goto = some Node.planner ∧
    (title_generator_node "r" c5state).calledModel = false :=
  c5_title_auto c5state "r" "Draft One" rfl rfl rfl

/-! ### C6: planning approval gate -/

/-- C6: while `book_plan` is unset, an approval keyword in the latest user
message captures `book_plan` from the most recent assistant message longer
than 100 characters (the last substantial assistant message of the history —
everything after it contains no substantial assistant message); with no
approval keyword, `book_plan` is left untouched. -/
theorem c6_plan_gate (s : BookAgentState) (resp : String)
    (hp : optTruthy s.book_plan = false) :
    (approvalKeyword (last_user_message s.messages) = true →
      (∃ m ∈ s.messages, substantialAI m = true) →
      ∃ l1 m l2, s.messages = l1 ++ m :: l2 ∧ m.role = Role.assistant ∧
        strLen m.content > 100 ∧ (∀ m2 ∈ l2, substantialAI m2 = false) ∧
        (planner_node resp s).state.book_plan = some m.content) ∧
    (approvalKeyword (last_user_message s.messages) = false →
      (planner_node resp s).state.book_plan = s.book_plan) := by
  constructor
  · intro hk hex
    rcases hfind : s.messages.reverse.find? substantialAI with _ | m
    · exfalso
      rw [List.find?_eq_none] at hfind
      obtain ⟨m, hm, hsub⟩ := hex
      exact absurd hsub (by simpa using hfind m (List.mem_reverse.mpr hm))
    · obtain ⟨hpm, l1, l2, hl, hall⟩ := find?_reverse_decomp _ _ _ hfind
      have hrm : m.role = Role.assistant ∧ strLen m.content > 100 := by
        simpa [substantialAI, Bool.and_eq_true, beq_iff_eq,
          decide_eq_true_eq] using hpm
      refine ⟨l1, m, l2, hl, hrm.1, hrm.2, hall, ?_⟩
      simp [planner_node, hp, hk, hfind]
  · intro hk
    simp [planner_node, hp, hk]

/-- A concrete planning-stage state: a substantial plan message, a later short
assistant remark, then the user's approval. -/
def c6state : BookAgentState :=
  { initState with
      stage := some "planner",
      messages :=
        [⟨Role.assistant, "Here is your book plan: Part I covers the origin story of the team, Part II develops the coaching framework in six chapters, and Part III closes with implementation playbooks and case studies."⟩,
         ⟨Role.assistant, "Shall we finalize it?"⟩,
         ⟨Role.user, "Looks good, I approve."⟩] }

/-- C6 witness: the approval gate fires on the concrete planning state and
captures the substantial plan message. -/
theorem c6_plan_gate_witness :
    ∃ l1 m l2, c6state.messages = l1 ++ m :: l2 ∧ m.role = Role.assistant ∧
      strLen m.content > 100 ∧ (∀ m2 ∈ l2, substantialAI m2 = false) ∧
      (planner_node "r" c6state).state.book_plan = some m.content :=
  (c6_plan_gate c6state "r" rfl).1 (by decide)
    ⟨⟨Role.assistant, "Here is your book plan: Part I covers the origin story of the team, Part II develops the coaching framework in six chapters, and Part III closes with implementation playbooks and case studies."⟩,
     by simp [c6state], by decide⟩

/-! ### C10: approval with no substantial assistant message -/

/-- C10: if the approval keyword fires while the history holds no assistant
message longer than 100 characters, `book_plan` is set to the empty string,
which the completion check (Python truthiness) treats as unset, so the next
turn stays in the planning stage. -/
theorem c10_empty_plan (s : BookAgentState) (resp : String)
    (hp : optTruthy s.book_plan = false)
    (hk : approvalKeyword (last_user_message s.messages) = true)
    (hno : ∀ m ∈ s.messages, substantialAI m = false) :
    (planner_node resp s).state.book_plan = some "" ∧
    optTruthy (planner_node resp s).state.book_plan = false ∧
    (planner_node resp s).state.stage = some "planner" ∧
    (∀ u oracle, (runTurn u oracle (planner_node resp s).state).1.stage = some "planner") := by
  have hfind : s.messages.reverse.find? substantialAI = none := by
    rw [List.find?_eq_none]
    intro m hm
    simp [hno m (List.mem_reverse.mp hm)]
  have hplan : (planner_node resp s).state.book_plan = some "" := by
    simp [planner_node, hp, hk, hfind]
  have hstage : (planner_node resp s).state.stage = some "planner" := by
    simp [planner_node, hp, hk, hfind]
  refine ⟨hplan, by simp [hplan, optTruthy], hstage, ?_⟩
  intro u oracle
  rw [runTurn_eq u oracle _ Node.planner (by simp [route_entry, hstage, sem_planner])]
  have hbp : optTruthy ({ (planner_node resp s).state with
      messages := (planner_node resp s).state.messages
        ++ [ChatMessage.mk Role.user u] }).book_plan = false := by
    simp [hplan, optTruthy]
  rw [show (10 : Nat) = 9 + 1 from rfl,
    runChain_stop 9 Node.planner oracle _ (planner_stay _ _ hbp).1]
  exact (planner_stay _ _ hbp).2

/-- A concrete planning-stage state with only short assistant messages and an
approving user reply. -/
def c10state : BookAgentState :=
  { initState with
      stage := some "planner",
      messages :=
        [⟨Role.assistant, "Shall we build the outline together?"⟩,
         ⟨Role.user, "Yes, that looks good."⟩] }

/-- C10 witness: the empty capture and the stay-in-planning behavior at a
concrete approval with no substantial assistant message. -/
theorem c10_empty_plan_witness :
    (planner_node "r" c10state).state.book_plan = some "" ∧
    optTruthy (planner_node "r" c10state).state.book_plan = false ∧
    (planner_node "r" c10state).state.stage = some "planner" ∧
    (∀ u oracle, (runTurn u oracle (planner_node "r" c10state).state).1.stage
      = some "planner") :=
  c10_empty_plan c10state "r" rfl (by decide) (by decide)

/-! ### C3: audience stage invariant -/


/-- The most recent user message of a history ending in a user message. -/
theorem last_user_append_user (l : List ChatMessage) (u : String) :
    last_user_message (l ++ [ChatMessage.mk Role.user u]) = u := by
  simp [last_user_message, List.find?]

/-- A string with at least one word is non-empty. -/
theorem wordCount_pos_ne (u : String) (h : 0 < wordCount u) : u ≠ "" := by
  rintro rfl
  simp [wordCount, wordsAux] at h

/-- A separator-join of a list ending in `u` is at least as long as `u`. -/
theorem strlen_join_ge (sep : String) (l : List String) (u : String) :
    (joinSep sep (l ++ [u])).length ≥ u.length := by
  induction l with
  | nil => simp [joinSep]
  | cons a t ih =>
    rcases t with _ | ⟨b, t2⟩
    · show (a ++ sep ++ joinSep sep ([] ++ [u])).length ≥ u.length
      rw [String.length_append, String.length_append]
      omega
    · show (a ++ sep ++ joinSep sep ((b :: t2) ++ [u])).length ≥ u.length
      rw [String.length_append, String.length_append]
      omega

/-- A separator-join of a list ending in a non-empty string is non-empty. -/
theorem joinSep_append_ne (sep : String) (l : List String) (u : String)
    (hu : u ≠ "") : joinSep sep (l ++ [u]) ≠ "" := by
  intro h
  have h1 := strlen_join_ge sep l u
  rw [h] at h1
  have h2 : u.length = 0 := by simpa using h1
  have h3 : u.data = [] := by
    cases hd : u.data with
    | nil => rfl
    | cons c cs => rw [String.length, hd] at h2; simp at h2
  exact hu (by cases u; simp_all)

/-- The `[-6:]` slice of a history ending in one extra message. -/
theorem lastN_append_one (l : List ChatMessage) (x : ChatMessage) :
    lastN 6 (l ++ [x]) = l.drop (l.length + 1 - 6) ++ [x] := by
  unfold lastN
  rw [List.length_append]
  simp only [List.length_singleton]
  rw [List.drop_append_of_le_length (by omega)]

/-- The profile string `empath_node` synthesizes. -/
def synthProfile (msgs : List ChatMessage) : String :=
  joinSep " | "
    (((lastN 6 msgs).filter (fun m => m.role == Role.user)).map (fun m => m.content))

/-- C3: under the audience-stage invariant (count at most 3, profile set
iff count is exactly 3) and a history ending in the latest user message `u`,
one empath step keeps the count at most 3, increments it exactly when `u` has
more than 5 words and the count is below 3, preserves the profile-iff-count-3
correspondence, and on the increment that reaches 3 stores the concatenation
(separated by `" | "`) of the user-role messages among the last 6 history
entries. -/
theorem c3_audience (s : BookAgentState) (resp u : String) (l : List ChatMessage)
    (hmsgs : s.messages = l ++ [ChatMessage.mk Role.user u])
    (hcount : s.audience_questions_asked.getD 0 ≤ 3)
    (hiff : optTruthy s.audience_profile = true ↔ s.audience_questions_asked.getD 0 = 3) :
    (empath_node resp s).state.audience_questions_asked.getD 0 ≤ 3 ∧
    ((empath_node resp s).state.audience_questions_asked.getD 0 =
      if s.audience_questions_asked.getD 0 < 3 ∧ wordCount u > 5
      then s.audience_questions_asked.getD 0 + 1
      else s.audience_questions_asked.getD 0) ∧
    (optTruthy (empath_node resp s).state.audience_profile = true ↔
      (empath_node resp s).state.audience_questions_asked.getD 0 = 3) ∧
    (s.audience_questions_asked.getD 0 < 3 →
      (empath_node resp s).state.audience_questions_asked.getD 0 = 3 →
      (empath_node resp s).state.audience_profile = some (synthProfile s.messages)) := by
  have hlum : last_user_message s.messages = u := by rw [hmsgs, last_user_append_user]
  by_cases hprof : optTruthy s.audience_profile = true
  · have hc3 : s.audience_questions_asked.getD 0 = 3 := hiff.mp hprof
    have he : empath_node resp s = NodeResult.mk
        { s with
          messages := s.messages ++ [ChatMessage.mk Role.assistant toTitleText],
          active_agent := some "Title Generator",
          stage := some "title_generator" }
        (some Node.title_generator) false := by
      simp only [empath_node, hprof, if_true]
    rw [he]
    refine ⟨by simpa using hcount, by simp [hc3], by simpa [hc3] using hprof, ?_⟩
    intro h1 _
    rw [hc3] at h1
    exact absurd h1 (by omega)
  · have hprofF : optTruthy s.audience_profile = false := by
      cases hb : optTruthy s.audience_profile <;> simp_all
    have hne3 : s.audience_questions_asked.getD 0 ≠ 3 := fun h => hprof (hiff.mpr h)
    have hclt : s.audience_questions_asked.getD 0 < 3 := lt_of_le_of_ne hcount hne3
    by_cases hw : wordCount u > 5
    · by_cases h2 : s.audience_questions_asked.getD 0 + 1 ≥ 3
      · have he : empath_node resp s = NodeResult.mk
            { s with
              messages := s.messages ++ [ChatMessage.mk Role.assistant resp],
              active_agent := some "Empath",
              stage := some "empath",
              audience_questions_asked := some (s.audience_questions_asked.getD 0 + 1),
              audience_profile := some (synthProfile s.messages) }
            none true := by
          simp only [empath_node, hprofF, Bool.false_eq_true, if_false, hlum, synthProfile]
          rw [if_pos ⟨hclt, hw⟩, if_pos h2]
        have hjoin : synthProfile s.messages ≠ "" := by
          unfold synthProfile
          rw [hmsgs, lastN_append_one, List.filter_append, List.map_append]
          have hx : List.filter (fun m => m.role == Role.user)
              [ChatMessage.mk Role.user u] = [ChatMessage.mk Role.user u] := by
            simp
          rw [hx]
          simp only [List.map_cons, List.map_nil]
          exact joinSep_append_ne _ _ _ (wordCount_pos_ne u (by omega))
        rw [he]
        refine ⟨by simp; omega, by simp [if_pos (And.intro hclt hw)], ?_, ?_⟩
        · simp only [optTruthy]
          constructor
          · intro _; simp; omega
          · intro _; simpa [bne_iff_ne] using hjoin
        · intro _ _; rfl
      · have he : empath_node resp s = NodeResult.mk
            { s with
              messages := s.messages ++ [ChatMessage.mk Role.assistant resp],
              active_agent := some "Empath",
              stage := some "empath",
              audience_questions_asked := some (s.audience_questions_asked.getD 0 + 1) }
            none true := by
          simp only [empath_node, hprofF, Bool.false_eq_true, if_false, hlum]
          rw [if_pos ⟨hclt, hw⟩, if_neg h2]
        rw [he]
        refine ⟨by simp; omega, by simp [if_pos (And.intro hclt hw)], ?_, ?_⟩
        · constructor
          · intro hh
            exact absurd (hiff.mp (by simpa [optTruthy] using hh)) hne3
          · intro hh
            simp at hh
            omega
        · intro _ hh
          simp at hh
          omega
    · have he : empath_node resp s = NodeResult.mk
          { s with
            messages := s.messages ++ [ChatMessage.mk Role.assistant resp],
            active_agent := some "Empath",
            stage := some "empath" }
          none true := by
        simp only [empath_node, hprofF, Bool.false_eq_true, if_false, hlum]
        rw [if_neg (by intro hc; exact hw hc.2)]
      rw [he]
      refine ⟨by simpa using hcount, ?_, ?_, ?_⟩
      · have hcond : ¬(s.audience_questions_asked.getD 0 < 3 ∧ wordCount u > 5) :=
          fun hc => hw hc.2
        simp [hcond]
      · simpa using hiff
      · intro _ hh
        simp at hh
        exact absurd (hiff.mpr hh) (by simp [hprofF])


/-- A concrete audience-stage state: two questions already answered, the third
answer (longer than 5 words) just arrived. -/
def c3state : BookAgentState :=
  { initState with
      stage := some "empath",
      audience_questions_asked := some 2,
      messages :=
        [⟨Role.assistant, "Who is the primary audience?"⟩,
         ⟨Role.user, "Mid career sales managers leading small teams"⟩,
         ⟨Role.assistant, "What problems do they face?"⟩,
         ⟨Role.user, "They struggle with coaching their teams consistently every week"⟩,
         ⟨Role.assistant, "What transformation do they seek?"⟩,
         ⟨Role.user, "They want a repeatable playbook for confident coaching"⟩] }

/-- C3 witness: the audience invariant step at the concrete third answer. -/
theorem c3_audience_witness :
    (empath_node "r" c3state).state.audience_questions_asked.getD 0 ≤ 3 ∧
    ((empath_node "r" c3state).state.audience_questions_asked.getD 0 =
      if c3state.audience_questions_asked.getD 0 < 3 ∧
          wordCount "They want a repeatable playbook for confident coaching" > 5
      then c3state.audience_questions_asked.getD 0 + 1
      else c3state.audience_questions_asked.getD 0) ∧
    (optTruthy (empath_node "r" c3state).state.audience_profile = true ↔
      (empath_node "r" c3state).state.audience_questions_asked.getD 0 = 3) ∧
    (c3state.audience_questions_asked.getD 0 < 3 →
      (empath_node "r" c3state).state.audience_questions_asked.getD 0 = 3 →
      (empath_node "r" c3state).state.audience_profile
        = some (synthProfile c3state.messages)) :=
  c3_audience c3state "r" "They want a repeatable playbook for confident coaching"
    [⟨Role.assistant, "Who is the primary audience?"⟩,
     ⟨Role.user, "Mid career sales managers leading small teams"⟩,
     ⟨Role.assistant, "What problems do they face?"⟩,
     ⟨Role.user, "They struggle with coaching their teams consistently every week"⟩,
     ⟨Role.assistant, "What transformation do they seek?"⟩]
    rfl (by decide) (by decide)

/-! ### C8: field immutability and append-only log -/


/-- Collected fields are never overwritten: every field that is truthy (set
and non-empty) in `s` keeps its exact value in `t`. -/
def FieldsPreserved (s t : BookAgentState) : Prop :=
  (optTruthy s.book_name = true → t.book_name = s.book_name) ∧
  (optTruthy s.author_name = true → t.author_name = s.author_name) ∧
  (optTruthy s.author_bio = true → t.author_bio = s.author_bio) ∧
  (optTruthy s.book_theme = true → t.book_theme = s.book_theme) ∧
  (optTruthy s.audience_profile = true → t.audience_profile = s.audience_profile) ∧
  (optTruthy s.final_title = true → t.final_title = s.final_title) ∧
  (optTruthy s.book_plan = true → t.book_plan = s.book_plan)

/-- The message log only grows: the log of `t` is the log of `s` plus a
suffix. -/
def MessagesExtend (s t : BookAgentState) : Prop :=
  ∃ tail, t.messages = s.messages ++ tail

set_option maxHeartbeats 2000000 in
/-- Every stage node preserves truthy collected fields and only appends to
the message log. -/
theorem node_preserves (n : Node) (resp : String) (s : BookAgentState) :
    FieldsPreserved s (execNode n resp s).state ∧
    MessagesExtend s (execNode n resp s).state := by
  unfold FieldsPreserved MessagesExtend
  cases n <;>
    simp only [execNode, biographer_node, empath_node, title_generator_node,
      planner_node, writer_node] <;>
    repeat' split
  all_goals refine ⟨⟨?_, ?_, ?_, ?_, ?_, ?_, ?_⟩, ⟨_, rfl⟩⟩
  all_goals intro h
  all_goals simp_all



/-- Reflexivity of field preservation. -/
theorem fieldsPreserved_refl (s : BookAgentState) : FieldsPreserved s s := by
  unfold FieldsPreserved
  refine ⟨?_, ?_, ?_, ?_, ?_, ?_, ?_⟩ <;> intro _ <;> rfl

/-- Transitivity of field preservation. -/
theorem fieldsPreserved_trans {s t v : BookAgentState}
    (h1 : FieldsPreserved s t) (h2 : FieldsPreserved t v) : FieldsPreserved s v := by
  obtain ⟨a1, a2, a3, a4, a5, a6, a7⟩ := h1
  obtain ⟨b1, b2, b3, b4, b5, b6, b7⟩ := h2
  refine ⟨?_, ?_, ?_, ?_, ?_, ?_, ?_⟩
  · intro h; rw [b1 (by rw [a1 h]; exact h), a1 h]
  · intro h; rw [b2 (by rw [a2 h]; exact h), a2 h]
  · intro h; rw [b3 (by rw [a3 h]; exact h), a3 h]
  · intro h; rw [b4 (by rw [a4 h]; exact h), a4 h]
  · intro h; rw [b5 (by rw [a5 h]; exact h), a5 h]
  · intro h; rw [b6 (by rw [a6 h]; exact h), a6 h]
  · intro h; rw [b7 (by rw [a7 h]; exact h), a7 h]

/-- Reflexivity of log extension. -/
theorem messagesExtend_refl (s : BookAgentState) : MessagesExtend s s :=
  ⟨[], by simp⟩

/-- Transitivity of log extension. -/
theorem messagesExtend_trans {s t v : BookAgentState}
    (h1 : MessagesExtend s t) (h2 : MessagesExtend t v) : MessagesExtend s v := by
  obtain ⟨t1, e1⟩ := h1
  obtain ⟨t2, e2⟩ := h2
  exact ⟨t1 ++ t2, by rw [e2, e1, List.append_assoc]⟩

/-- A whole `goto` chain preserves truthy fields and only appends to the
log. -/
theorem runChain_preserves (fuel : Nat) (n : Node) (oracle : List String)
    (s : BookAgentState) :
    FieldsPreserved s (runChain fuel n oracle s).1 ∧
    MessagesExtend s (runChain fuel n oracle s).1 := by
  induction fuel generalizing n oracle s with
  | zero => exact ⟨fieldsPreserved_refl s, messagesExtend_refl s⟩
  | succ fuel ih =>
    rcases hg : (execNode n (oracle.headD "") s).goto with _ | n2
    · rw [runChain_stop fuel n oracle s hg]
      exact node_preserves n (oracle.headD "") s
    · rw [runChain_step fuel n oracle s n2 hg]
      refine ⟨fieldsPreserved_trans (node_preserves n (oracle.headD "") s).1
        (ih n2 _ _).1, messagesExtend_trans (node_preserves n (oracle.headD "") s).2
        (ih n2 _ _).2⟩

/-- C8: over any full inbound turn, every collected field that already holds
a non-empty value keeps that exact value, and the message log of the
resulting state extends the previous log (append-only). -/
theorem c8_fields_monotone (s : BookAgentState) (u : String) (oracle : List String) :
    FieldsPreserved s (runTurn u oracle s).1 ∧
    MessagesExtend s (runTurn u oracle s).1 := by
  have hstep : FieldsPreserved s { s with messages := s.messages ++ [ChatMessage.mk Role.user u] } ∧
      MessagesExtend s { s with messages := s.messages ++ [ChatMessage.mk Role.user u] } := by
    constructor
    · unfold FieldsPreserved
      refine ⟨?_, ?_, ?_, ?_, ?_, ?_, ?_⟩ <;> intro _ <;> rfl
    · exact ⟨[ChatMessage.mk Role.user u], rfl⟩
  rcases hm : stage_entry_map (route_entry s) with _ | oN
  · have : runTurn u oracle s = ({ s with messages := s.messages ++ [ChatMessage.mk Role.user u] }, 0) := by
      simp only [runTurn, show route_entry { s with messages := s.messages ++ [ChatMessage.mk Role.user u] } = route_entry s from rfl, hm]
    rw [this]
    exact hstep
  · rcases oN with _ | n
    · have : runTurn u oracle s = ({ s with messages := s.messages ++ [ChatMessage.mk Role.user u] }, 0) := by
        simp only [runTurn, show route_entry { s with messages := s.messages ++ [ChatMessage.mk Role.user u] } = route_entry s from rfl, hm]
      rw [this]
      exact hstep
    · rw [runTurn_eq u oracle s n hm]
      exact ⟨fieldsPreserved_trans hstep.1 (runChain_preserves 10 n oracle _).1,
        messagesExtend_trans hstep.2 (runChain_preserves 10 n oracle _).2⟩


/-- A concrete state with every collected field set. -/
def c8state : BookAgentState :=
  { initState with
      active_agent := some "Writer", book_name := some "Draft One",
      author_name := some "Avery", author_bio := some "Coach and writer",
      book_theme := some "coaching", audience_profile := some "managers",
      audience_questions_asked := some 3, wants_title_suggestions := some false,
      final_title := some "Draft One", book_plan := some "Plan",
      stage := some "writer",
      messages := [⟨Role.user, "hello"⟩] }

/-- C8 witness: a turn on a fully collected state changes no collected field
and only appends messages. -/
theorem c8_fields_monotone_witness :
    (runTurn "carry on please" ["r"] c8state).1.book_name = c8state.book_name ∧
    (runTurn "carry on please" ["r"] c8state).1.author_name = c8state.author_name ∧
    (runTurn "carry on please" ["r"] c8state).1.author_bio = c8state.author_bio ∧
    (runTurn "carry on please" ["r"] c8state).1.book_theme = c8state.book_theme ∧
    (runTurn "carry on please" ["r"] c8state).1.audience_profile = c8state.audience_profile ∧
    (runTurn "carry on please" ["r"] c8state).1.final_title = c8state.final_title ∧
    (runTurn "carry on please" ["r"] c8state).1.book_plan = c8state.book_plan ∧
    MessagesExtend c8state (runTurn "carry on please" ["r"] c8state).1 :=
  ⟨(c8_fields_monotone c8state "carry on please" ["r"]).1.1 (by decide),
   (c8_fields_monotone c8state "carry on please" ["r"]).1.2.1 (by decide),
   (c8_fields_monotone c8state "carry on please" ["r"]).1.2.2.1 (by decide),
   (c8_fields_monotone c8state "carry on please" ["r"]).1.2.2.2.1 (by decide),
   (c8_fields_monotone c8state "carry on please" ["r"]).1.2.2.2.2.1 (by decide),
   (c8_fields_monotone c8state "carry on please" ["r"]).1.2.2.2.2.2.1 (by decide),
   (c8_fields_monotone c8state "carry on please" ["r"]).1.2.2.2.2.2.2 (by decide),
   (c8_fields_monotone c8state "carry on please" ["r"]).2⟩

/-! ### C1: profiling extraction sequence -/


/-- A non-empty present string field is truthy. -/
theorem optTruthy_some_of_ne {u : String} (h : u ≠ "") : optTruthy (some u) = true := by
  simp [optTruthy, bne_iff_ne, h]

/-- A single-oracle turn whose routed node returns `goto=END`: one node runs. -/
theorem runTurn_stop1 (u r : String) (s res : BookAgentState) (n : Node)
    (hmap : stage_entry_map (route_entry s) = some (some n))
    (hexec : execNode n r { s with messages := s.messages ++ [ChatMessage.mk Role.user u] }
      = NodeResult.mk res none true) :
    runTurn u [r] s = (res, 1) := by
  rw [runTurn_eq u [r] s n hmap, show (10 : Nat) = 9 + 1 from rfl,
    runChain_stop 9 n [r] _ (by rw [show (([r] : List String).headD "") = r from rfl, hexec])]
  rw [show (([r] : List String).headD "") = r from rfl, hexec]

/-- A single-oracle turn whose routed node hands off without a model call and
whose successor returns `goto=END`: exactly two nodes run. -/
theorem runTurn_hand2 (u r : String) (s mid : BookAgentState) (n n2 : Node)
    (hmap : stage_entry_map (route_entry s) = some (some n))
    (hexec1 : execNode n r { s with messages := s.messages ++ [ChatMessage.mk Role.user u] }
      = NodeResult.mk mid (some n2) false)
    (hgoto2 : (execNode n2 r mid).goto = none) :
    runTurn u [r] s = ((execNode n2 r mid).state, 2) := by
  rw [runTurn_eq u [r] s n hmap, show (10 : Nat) = 9 + 1 from rfl,
    runChain_step 9 n [r] _ n2 (by rw [show (([r] : List String).headD "") = r from rfl, hexec1])]
  rw [show (([r] : List String).headD "") = r from rfl, hexec1]
  show ((runChain (8 + 1) n2 [r] mid).1, (runChain (8 + 1) n2 [r] mid).2 + 1)
    = ((execNode n2 r mid).state, 2)
  rw [runChain_stop 8 n2 [r] mid (by rw [show (([r] : List String).headD "") = r from rfl, hgoto2])]
  rw [show (([r] : List String).headD "") = r from rfl]

/-- Biographer extraction, book-name branch. -/
theorem bio_step1 (resp u : String) (s : BookAgentState)
    (h0 : optTruthy s.book_name = false)
    (hlum : last_user_message s.messages = u)
    (hu : wordCount u > 0) :
    biographer_node resp s = NodeResult.mk
      { s with
        messages := s.messages ++ [ChatMessage.mk Role.assistant resp],
        active_agent := some "Biographer", stage := some "biographer",
        book_name := some u } none true := by
  simp only [biographer_node, h0, hlum, Bool.false_and, Bool.false_eq_true, if_false,
    Bool.not_false]
  rw [if_pos ⟨by trivial, hu⟩]

/-- Biographer extraction, author-name branch. -/
theorem bio_step2 (resp u : String) (s : BookAgentState)
    (h0 : optTruthy s.book_name = true)
    (h1 : optTruthy s.author_name = false)
    (hlum : last_user_message s.messages = u)
    (hu : wordCount u > 0) :
    biographer_node resp s = NodeResult.mk
      { s with
        messages := s.messages ++ [ChatMessage.mk Role.assistant resp],
        active_agent := some "Biographer", stage := some "biographer",
        author_name := some u } none true := by
  simp only [biographer_node, h0, h1, hlum, Bool.true_and, Bool.false_and,
    Bool.false_eq_true, if_false, Bool.not_true, Bool.not_false]
  rw [if_neg (fun hc => by exact absurd hc.1 (by simp))]
  rw [if_pos ⟨by trivial, by trivial, hu⟩]

/-- Biographer extraction, author-bio branch (more than 5 words). -/
theorem bio_step3 (resp u : String) (s : BookAgentState)
    (h0 : optTruthy s.book_name = true)
    (h1 : optTruthy s.author_name = true)
    (h2 : optTruthy s.author_bio = false)
    (hlum : last_user_message s.messages = u)
    (hu : wordCount u > 5) :
    biographer_node resp s = NodeResult.mk
      { s with
        messages := s.messages ++ [ChatMessage.mk Role.assistant resp],
        active_agent := some "Biographer", stage := some "biographer",
        author_bio := some u } none true := by
  simp only [biographer_node, h0, h1, h2, hlum, Bool.true_and, Bool.false_and,
    Bool.false_eq_true, if_false, Bool.not_true, Bool.not_false]
  rw [if_neg (fun hc => by exact absurd hc.1 (by simp))]
  rw [if_neg (fun hc => by exact absurd hc.1 (by simp))]
  rw [if_pos ⟨by trivial, by trivial, hu⟩]

/-- Biographer extraction, book-theme branch (more than 3 words). -/
theorem bio_step4 (resp u : String) (s : BookAgentState)
    (h0 : optTruthy s.book_name = true)
    (h1 : optTruthy s.author_name = true)
    (h2 : optTruthy s.author_bio = true)
    (h3 : optTruthy s.book_theme = false)
    (hlum : last_user_message s.messages = u)
    (hu : wordCount u > 3) :
    biographer_node resp s = NodeResult.mk
      { s with
        messages := s.messages ++ [ChatMessage.mk Role.assistant resp],
        active_agent := some "Biographer", stage := some "biographer",
        book_theme := some u } none true := by
  simp only [biographer_node, h0, h1, h2, h3, hlum, Bool.true_and, Bool.and_false,
    Bool.false_eq_true, if_false, Bool.not_true, Bool.not_false]
  rw [if_neg (fun hc => by exact absurd hc.1 (by simp))]
  rw [if_neg (fun hc => by exact absurd hc.1 (by simp))]
  rw [if_neg (fun hc => by exact absurd hc.1 (by simp))]
  rw [if_pos ⟨by trivial, by trivial, hu⟩]

/-- Biographer hand-off: all four fields collected, no model call. -/
theorem bio_handoff (resp : String) (s : BookAgentState)
    (h0 : optTruthy s.book_name = true)
    (h1 : optTruthy s.author_name = true)
    (h2 : optTruthy s.author_bio = true)
    (h3 : optTruthy s.book_theme = true) :
    biographer_node resp s = NodeResult.mk
      { s with
        messages := s.messages ++ [ChatMessage.mk Role.assistant toEmpathText],
        active_agent := some "Empath", stage := some "empath" }
      (some Node.empath) false := by
  simp only [biographer_node, h0, h1, h2, h3, Bool.and_self, Bool.true_and, if_true]

/-- While the audience profile is untruthy, the empath node waits for the
user, staying on the audience stage as the Empath specialist. -/
theorem empath_stage (resp : String) (s : BookAgentState)
    (hprofF : optTruthy s.audience_profile = false) :
    (empath_node resp s).state.stage = some "empath" ∧
    (empath_node resp s).state.active_agent = some "Empath" ∧
    (empath_node resp s).goto = none := by
  simp only [empath_node, hprofF, Bool.false_eq_true, if_false]
  split
  · split <;> exact ⟨rfl, rfl, rfl⟩
  · exact ⟨rfl, rfl, rfl⟩



/-- State after the first profiling turn. -/
def c1S1 (u1 r1 : String) : BookAgentState :=
  { initState with
      messages := [⟨Role.user, u1⟩, ⟨Role.assistant, r1⟩],
      active_agent := some "Biographer", stage := some "biographer",
      book_name := some u1 }

/-- State after the second profiling turn. -/
def c1S2 (u1 r1 u2 r2 : String) : BookAgentState :=
  { initState with
      messages := [⟨Role.user, u1⟩, ⟨Role.assistant, r1⟩,
        ⟨Role.user, u2⟩, ⟨Role.assistant, r2⟩],
      active_agent := some "Biographer", stage := some "biographer",
      book_name := some u1, author_name := some u2 }

/-- State after the third profiling turn. -/
def c1S3 (u1 r1 u2 r2 u3 r3 : String) : BookAgentState :=
  { initState with
      messages := [⟨Role.user, u1⟩, ⟨Role.assistant, r1⟩,
        ⟨Role.user, u2⟩, ⟨Role.assistant, r2⟩,
        ⟨Role.user, u3⟩, ⟨Role.assistant, r3⟩],
      active_agent := some "Biographer", stage := some "biographer",
      book_name := some u1, author_name := some u2, author_bio := some u3 }

/-- State after the fourth profiling turn. -/
def c1S4 (u1 r1 u2 r2 u3 r3 u4 r4 : String) : BookAgentState :=
  { initState with
      messages := [⟨Role.user, u1⟩, ⟨Role.assistant, r1⟩,
        ⟨Role.user, u2⟩, ⟨Role.assistant, r2⟩,
        ⟨Role.user, u3⟩, ⟨Role.assistant, r3⟩,
        ⟨Role.user, u4⟩, ⟨Role.assistant, r4⟩],
      active_agent := some "Biographer", stage := some "biographer",
      book_name := some u1, author_name := some u2, author_bio := some u3,
      book_theme := some u4 }

/-- C1: for any four profiling answers meeting the per-field thresholds
(any words for title and name, more than 5 words for the bio, more than 3 for
the theme), the four turns fill the four fields verbatim in the fixed order,
the state is still in the profiling stage after the fourth turn, and the next
processed turn transitions to the audience stage with `activeSpecialist`
"Empath". -/
theorem c1_profiling (u1 u2 u3 u4 u5 r1 r2 r3 r4 r5 : String)
    (h1 : wordCount u1 > 0) (h2 : wordCount u2 > 0)
    (h3 : wordCount u3 > 5) (h4 : wordCount u4 > 3) :
    runTurn u1 [r1] initState = (c1S1 u1 r1, 1) ∧
    runTurn u2 [r2] (c1S1 u1 r1) = (c1S2 u1 r1 u2 r2, 1) ∧
    runTurn u3 [r3] (c1S2 u1 r1 u2 r2) = (c1S3 u1 r1 u2 r2 u3 r3, 1) ∧
    runTurn u4 [r4] (c1S3 u1 r1 u2 r2 u3 r3) = (c1S4 u1 r1 u2 r2 u3 r3 u4 r4, 1) ∧
    (c1S4 u1 r1 u2 r2 u3 r3 u4 r4).book_name = some u1 ∧
    (c1S4 u1 r1 u2 r2 u3 r3 u4 r4).author_name = some u2 ∧
    (c1S4 u1 r1 u2 r2 u3 r3 u4 r4).author_bio = some u3 ∧
    (c1S4 u1 r1 u2 r2 u3 r3 u4 r4).book_theme = some u4 ∧
    (c1S4 u1 r1 u2 r2 u3 r3 u4 r4).stage = some "biographer" ∧
    (runTurn u5 [r5] (c1S4 u1 r1 u2 r2 u3 r3 u4 r4)).1.stage = some "empath" ∧
    (runTurn u5 [r5] (c1S4 u1 r1 u2 r2 u3 r3 u4 r4)).1.active_agent = some "Empath" := by
  have hn1 : u1 ≠ "" := wordCount_pos_ne u1 h1
  have hn2 : u2 ≠ "" := wordCount_pos_ne u2 h2
  have hn3 : u3 ≠ "" := wordCount_pos_ne u3 (by omega)
  have hn4 : u4 ≠ "" := wordCount_pos_ne u4 (by omega)
  have t1 : runTurn u1 [r1] initState = (c1S1 u1 r1, 1) :=
    runTurn_stop1 u1 r1 initState (c1S1 u1 r1) Node.biographer rfl
      (bio_step1 r1 u1
        { initState with messages := initState.messages ++ [ChatMessage.mk Role.user u1] }
        rfl (last_user_append_user initState.messages u1) h1)
  have t2 : runTurn u2 [r2] (c1S1 u1 r1) = (c1S2 u1 r1 u2 r2, 1) :=
    runTurn_stop1 u2 r2 (c1S1 u1 r1) (c1S2 u1 r1 u2 r2) Node.biographer rfl
      (bio_step2 r2 u2
        { c1S1 u1 r1 with
          messages := (c1S1 u1 r1).messages ++ [ChatMessage.mk Role.user u2] }
        (optTruthy_some_of_ne hn1) rfl
        (last_user_append_user (c1S1 u1 r1).messages u2) h2)
  have t3 : runTurn u3 [r3] (c1S2 u1 r1 u2 r2) = (c1S3 u1 r1 u2 r2 u3 r3, 1) :=
    runTurn_stop1 u3 r3 (c1S2 u1 r1 u2 r2) (c1S3 u1 r1 u2 r2 u3 r3) Node.biographer rfl
      (bio_step3 r3 u3
        { c1S2 u1 r1 u2 r2 with
          messages := (c1S2 u1 r1 u2 r2).messages ++ [ChatMessage.mk Role.user u3] }
        (optTruthy_some_of_ne hn1) (optTruthy_some_of_ne hn2) rfl
        (last_user_append_user (c1S2 u1 r1 u2 r2).messages u3) h3)
  have t4 : runTurn u4 [r4] (c1S3 u1 r1 u2 r2 u3 r3) = (c1S4 u1 r1 u2 r2 u3 r3 u4 r4, 1) :=
    runTurn_stop1 u4 r4 (c1S3 u1 r1 u2 r2 u3 r3) (c1S4 u1 r1 u2 r2 u3 r3 u4 r4)
      Node.biographer rfl
      (bio_step4 r4 u4
        { c1S3 u1 r1 u2 r2 u3 r3 with
          messages := (c1S3 u1 r1 u2 r2 u3 r3).messages ++ [ChatMessage.mk Role.user u4] }
        (optTruthy_some_of_ne hn1) (optTruthy_some_of_ne hn2)
        (optTruthy_some_of_ne hn3) rfl
        (last_user_append_user (c1S3 u1 r1 u2 r2 u3 r3).messages u4) h4)
  have t5 : runTurn u5 [r5] (c1S4 u1 r1 u2 r2 u3 r3 u4 r4) =
      ((execNode Node.empath r5 ({ c1S4 u1 r1 u2 r2 u3 r3 u4 r4 with
        messages := ((c1S4 u1 r1 u2 r2 u3 r3 u4 r4).messages
          ++ [ChatMessage.mk Role.user u5]) ++ [ChatMessage.mk Role.assistant toEmpathText],
        active_agent := some "Empath", stage := some "empath" } : BookAgentState)).state, 2) :=
    runTurn_hand2 u5 r5 (c1S4 u1 r1 u2 r2 u3 r3 u4 r4) _ Node.biographer Node.empath rfl
      (bio_handoff r5
        { c1S4 u1 r1 u2 r2 u3 r3 u4 r4 with
          messages := (c1S4 u1 r1 u2 r2 u3 r3 u4 r4).messages
            ++ [ChatMessage.mk Role.user u5] }
        (optTruthy_some_of_ne hn1) (optTruthy_some_of_ne hn2)
        (optTruthy_some_of_ne hn3) (optTruthy_some_of_ne hn4))
      ((empath_stage r5
        { c1S4 u1 r1 u2 r2 u3 r3 u4 r4 with
          messages := ((c1S4 u1 r1 u2 r2 u3 r3 u4 r4).messages
            ++ [ChatMessage.mk Role.user u5]) ++ [ChatMessage.mk Role.assistant toEmpathText],
          active_agent := some "Empath", stage := some "empath" }
        rfl).2.2)
  refine ⟨t1, t2, t3, t4, rfl, rfl, rfl, rfl, rfl, ?_, ?_⟩
  · rw [t5]
    exact (empath_stage r5
      { c1S4 u1 r1 u2 r2 u3 r3 u4 r4 with
          messages := ((c1S4 u1 r1 u2 r2 u3 r3 u4 r4).messages
            ++ [ChatMessage.mk Role.user u5]) ++ [ChatMessage.mk Role.assistant toEmpathText],
          active_agent := some "Empath", stage := some "empath" }
      rfl).1
  · rw [t5]
    exact (empath_stage r5
      { c1S4 u1 r1 u2 r2 u3 r3 u4 r4 with
          messages := ((c1S4 u1 r1 u2 r2 u3 r3 u4 r4).messages
            ++ [ChatMessage.mk Role.user u5]) ++ [ChatMessage.mk Role.assistant toEmpathText],
          active_agent := some "Empath", stage := some "empath" }
      rfl).2.1


/-- C1 witness: a concrete profiling conversation. -/
theorem c1_profiling_witness :
    (c1S4 "Draft One" "q1" "Avery Jones" "q2"
      "I have coached sales teams for a decade" "q3"
      "growth coaching for sales teams" "q4").book_name = some "Draft One" ∧
    (runTurn "ready" ["q5"] (c1S4 "Draft One" "q1" "Avery Jones" "q2"
      "I have coached sales teams for a decade" "q3"
      "growth coaching for sales teams" "q4")).1.stage = some "empath" ∧
    (runTurn "ready" ["q5"] (c1S4 "Draft One" "q1" "Avery Jones" "q2"
      "I have coached sales teams for a decade" "q3"
      "growth coaching for sales teams" "q4")).1.active_agent = some "Empath" :=
  ⟨(c1_profiling "Draft One" "Avery Jones"
      "I have coached sales teams for a decade" "growth coaching for sales teams"
      "ready" "q1" "q2" "q3" "q4" "q5"
      (by decide) (by decide) (by decide) (by decide)).2.2.2.2.1,
   (c1_profiling "Draft One" "Avery Jones"
      "I have coached sales teams for a decade" "growth coaching for sales teams"
      "ready" "q1" "q2" "q3" "q4" "q5"
      (by decide) (by decide) (by decide) (by decide)).2.2.2.2.2.2.2.2.2.1,
   (c1_profiling "Draft One" "Avery Jones"
      "I have coached sales teams for a decade" "growth coaching for sales teams"
      "ready" "q1" "q2" "q3" "q4" "q5"
      (by decide) (by decide) (by decide) (by decide)).2.2.2.2.2.2.2.2.2.2⟩

/-! ### C7: at most two nodes per turn -/


/-- Entry condition under which the title node does not immediately hand
off: no final title yet and the suggestions flag is not `False`. -/
def titleEntryOk (s : BookAgentState) : Prop :=
  optTruthy s.final_title = false ∧ s.wants_title_suggestions ≠ some false

/-- Invariant of reachable states: the stage field holds a recognized value,
and no stage is entered while the completion field of its successor stage is
already satisfied (which is what keeps every turn to at most one hand-off). -/
def StageInv (s : BookAgentState) : Prop :=
  (s.stage = none ∨ s.stage = some "biographer" ∨ s.stage = some "empath" ∨
    s.stage = some "title_generator" ∨ s.stage = some "planner" ∨
    s.stage = some "writer" ∨ s.stage = some "complete") ∧
  ((s.stage = none ∨ s.stage = some "biographer") →
    optTruthy s.audience_profile = false ∧ titleEntryOk s ∧
      optTruthy s.book_plan = false) ∧
  (s.stage = some "empath" → titleEntryOk s ∧ optTruthy s.book_plan = false) ∧
  (s.stage = some "title_generator" → optTruthy s.book_plan = false)

/-- States reachable from the fresh conversation state by whole turns. -/
inductive Reachable : BookAgentState → Prop where
  | init : Reachable initState
  | step (s : BookAgentState) (u : String) (oracle : List String) :
      Reachable s → Reachable (runTurn u oracle s).1

/-- Routing returns the stage value itself when present. -/
theorem route_of_stage (s : BookAgentState) (v : String) (h : s.stage = some v) :
    route_entry s = v := by
  unfold route_entry
  rw [h]
  rfl

/-- Routing defaults to the biographer entry when the stage is absent. -/
theorem route_of_no_stage (s : BookAgentState) (h : s.stage = none) :
    route_entry s = "biographer" := by
  unfold route_entry
  rw [h]
  rfl

/-- A turn routed to the terminal END entry executes no node. -/
theorem runTurn_end (u : String) (oracle : List String) (s : BookAgentState)
    (h : stage_entry_map (route_entry s) = some none) :
    runTurn u oracle s =
      ({ s with messages := s.messages ++ [ChatMessage.mk Role.user u] }, 0) := by
  simp only [runTurn,
    show route_entry { s with messages := s.messages ++ [ChatMessage.mk Role.user u] }
      = route_entry s from rfl, h]

/-- The biographer node either waits (staying on the profiling stage) or
hands off to the empath node. -/
theorem bio_shape (resp : String) (s : BookAgentState) :
    ((execNode Node.biographer resp s).goto = none ∧
      (execNode Node.biographer resp s).state.stage = some "biographer") ∨
    ((execNode Node.biographer resp s).goto = some Node.empath ∧
      (execNode Node.biographer resp s).state.stage = some "empath") := by
  simp only [execNode, biographer_node]
  split
  · exact Or.inr ⟨rfl, rfl⟩
  · left
    refine ⟨rfl, ?_⟩
    repeat' split
    all_goals rfl

/-- The biographer node never touches downstream fields. -/
theorem bio_untouched (resp : String) (s : BookAgentState) :
    (execNode Node.biographer resp s).state.audience_profile = s.audience_profile ∧
    (execNode Node.biographer resp s).state.final_title = s.final_title ∧
    (execNode Node.biographer resp s).state.wants_title_suggestions
      = s.wants_title_suggestions ∧
    (execNode Node.biographer resp s).state.book_plan = s.book_plan := by
  simp only [execNode, biographer_node]
  repeat' split
  all_goals exact ⟨rfl, rfl, rfl, rfl⟩

/-- The empath node either waits (staying on the audience stage) or hands
off to the title node. -/
theorem empath_shape (resp : String) (s : BookAgentState) :
    ((execNode Node.empath resp s).goto = none ∧
      (execNode Node.empath resp s).state.stage = some "empath") ∨
    ((execNode Node.empath resp s).goto = some Node.title_generator ∧
      (execNode Node.empath resp s).state.stage = some "title_generator") := by
  simp only [execNode, empath_node]
  split
  · exact Or.inr ⟨rfl, rfl⟩
  · left
    refine ⟨?_, ?_⟩ <;> (repeat' split) <;> rfl

/-- The empath node never touches title or planning fields. -/
theorem empath_untouched (resp : String) (s : BookAgentState) :
    (execNode Node.empath resp s).state.final_title = s.final_title ∧
    (execNode Node.empath resp s).state.wants_title_suggestions
      = s.wants_title_suggestions ∧
    (execNode Node.empath resp s).state.book_plan = s.book_plan := by
  simp only [execNode, empath_node]
  repeat' split
  all_goals exact ⟨rfl, rfl, rfl⟩

/-- The title node either waits (staying on the title stage) or hands off to
the planner node. -/
theorem title_shape (resp : String) (s : BookAgentState) :
    ((execNode Node.title_generator resp s).goto = none ∧
      (execNode Node.title_generator resp s).state.stage = some "title_generator") ∨
    ((execNode Node.title_generator resp s).goto = some Node.planner ∧
      (execNode Node.title_generator resp s).state.stage = some "planner") := by
  simp only [execNode, title_generator_node]
  split
  · exact Or.inr ⟨rfl, rfl⟩
  · split
    · exact Or.inr ⟨rfl, rfl⟩
    · left
      refine ⟨?_, ?_⟩ <;> (repeat' split) <;> rfl

/-- The title node never touches the plan or the audience profile. -/
theorem title_untouched (resp : String) (s : BookAgentState) :
    (execNode Node.title_generator resp s).state.book_plan = s.book_plan ∧
    (execNode Node.title_generator resp s).state.audience_profile
      = s.audience_profile := by
  simp only [execNode, title_generator_node]
  repeat' split
  all_goals exact ⟨rfl, rfl⟩

/-- With no final title and the flag not `False`, the title node waits. -/
theorem title_stay (resp : String) (s : BookAgentState)
    (hf : optTruthy s.final_title = false)
    (hw : s.wants_title_suggestions ≠ some false) :
    (execNode Node.title_generator resp s).goto = none := by
  have hwb : (s.wants_title_suggestions == some false) = false := by
    simp [beq_eq_false_iff_ne, hw]
  simp only [execNode, title_generator_node, hf, hwb, Bool.false_eq_true, if_false]

/-- The planner node either waits (staying on the planning stage) or hands
off to the writer node. -/
theorem planner_shape (resp : String) (s : BookAgentState) :
    ((execNode Node.planner resp s).goto = none ∧
      (execNode Node.planner resp s).state.stage = some "planner") ∨
    ((execNode Node.planner resp s).goto = some Node.writer ∧
      (execNode Node.planner resp s).state.stage = some "writer") := by
  simp only [execNode, planner_node]
  split
  · exact Or.inr ⟨rfl, rfl⟩
  · left
    refine ⟨?_, ?_⟩ <;> (repeat' split) <;> rfl

/-- The writer node always returns to the caller, on the writing or the
terminal stage. -/
theorem writer_shape (resp : String) (s : BookAgentState) :
    (execNode Node.writer resp s).goto = none ∧
    ((execNode Node.writer resp s).state.stage = some "writer" ∨
      (execNode Node.writer resp s).state.stage = some "complete") := by
  simp only [execNode, writer_node]
  refine ⟨?_, ?_⟩
  · trivial
  · split
    · exact Or.inr rfl
    · exact Or.inl rfl



/-- Turn bound and invariant preservation from the profiling stage. -/
theorem turn_from_bio (s : BookAgentState) (u : String) (oracle : List String)
    (hmap : stage_entry_map (route_entry s) = some (some Node.biographer))
    (hprof : optTruthy s.audience_profile = false)
    (hTitle : titleEntryOk s)
    (hPlan : optTruthy s.book_plan = false) :
    (runTurn u oracle s).2 ≤ 2 ∧ StageInv (runTurn u oracle s).1 := by
  rw [runTurn_eq u oracle s Node.biographer hmap]
  set s0 := { s with messages := s.messages ++ [ChatMessage.mk Role.user u] } with hs0
  have hprof0 : optTruthy s0.audience_profile = false := hprof
  have hTitle0 : titleEntryOk s0 := hTitle
  have hPlan0 : optTruthy s0.book_plan = false := hPlan
  rcases bio_shape (oracle.headD "") s0 with ⟨hg, hstg⟩ | ⟨hg, hstg⟩
  · rw [show (10 : Nat) = 9 + 1 from rfl, runChain_stop 9 _ _ _ hg]
    have hun := bio_untouched (oracle.headD "") s0
    refine ⟨by simp, ?_⟩
    show StageInv (execNode Node.biographer (oracle.headD "") s0).state
    refine ⟨Or.inr (Or.inl hstg), ?_, ?_, ?_⟩
    · intro _
      refine ⟨by rw [hun.1]; exact hprof0, ⟨?_, ?_⟩, by rw [hun.2.2.2]; exact hPlan0⟩
      · rw [hun.2.1]; exact hTitle0.1
      · rw [hun.2.2.1]; exact hTitle0.2
    · intro h; rw [hstg] at h; simp at h
    · intro h; rw [hstg] at h; simp at h
  · have hun := bio_untouched (oracle.headD "") s0
    have hprofm : optTruthy (execNode Node.biographer (oracle.headD "") s0).state.audience_profile
        = false := by rw [hun.1]; exact hprof0
    rw [show (10 : Nat) = 9 + 1 from rfl, runChain_step 9 _ _ _ _ hg,
      show (9 : Nat) = 8 + 1 from rfl]
    set mid := (execNode Node.biographer (oracle.headD "") s0).state with hmid
    set rest := if (execNode Node.biographer (oracle.headD "") s0).calledModel = true
      then oracle.tail else oracle with hrest
    have hg2 : (execNode Node.empath (rest.headD "") mid).goto = none :=
      (empath_stage (rest.headD "") mid hprofm).2.2
    rw [runChain_stop 8 _ _ _ hg2]
    have hstg2 : (execNode Node.empath (rest.headD "") mid).state.stage = some "empath" :=
      (empath_stage (rest.headD "") mid hprofm).1
    have hun2 := empath_untouched (rest.headD "") mid
    refine ⟨by simp, ?_⟩
    show StageInv (execNode Node.empath (rest.headD "") mid).state
    refine ⟨Or.inr (Or.inr (Or.inl hstg2)), ?_, ?_, ?_⟩
    · intro hOr
      exfalso
      rcases hOr with h | h <;> rw [hstg2] at h <;> simp at h
    · intro _
      refine ⟨⟨?_, ?_⟩, ?_⟩
      · rw [hun2.1, hun.2.1]; exact hTitle0.1
      · rw [hun2.2.1, hun.2.2.1]; exact hTitle0.2
      · rw [hun2.2.2, hun.2.2.2]; exact hPlan0
    · intro h; rw [hstg2] at h; simp at h



/-- Turn bound and invariant preservation from the audience stage. -/
theorem turn_from_empath (s : BookAgentState) (u : String) (oracle : List String)
    (hmap : stage_entry_map (route_entry s) = some (some Node.empath))
    (hTitle : titleEntryOk s)
    (hPlan : optTruthy s.book_plan = false) :
    (runTurn u oracle s).2 ≤ 2 ∧ StageInv (runTurn u oracle s).1 := by
  rw [runTurn_eq u oracle s Node.empath hmap]
  set s0 := { s with messages := s.messages ++ [ChatMessage.mk Role.user u] } with hs0
  have hTitle0 : titleEntryOk s0 := hTitle
  have hPlan0 : optTruthy s0.book_plan = false := hPlan
  rcases empath_shape (oracle.headD "") s0 with ⟨hg, hstg⟩ | ⟨hg, hstg⟩
  · rw [show (10 : Nat) = 9 + 1 from rfl, runChain_stop 9 _ _ _ hg]
    have hun := empath_untouched (oracle.headD "") s0
    refine ⟨by simp, ?_⟩
    show StageInv (execNode Node.empath (oracle.headD "") s0).state
    refine ⟨Or.inr (Or.inr (Or.inl hstg)), ?_, ?_, ?_⟩
    · intro hOr
      exfalso
      rcases hOr with h | h <;> rw [hstg] at h <;> simp at h
    · intro _
      refine ⟨⟨?_, ?_⟩, ?_⟩
      · rw [hun.1]; exact hTitle0.1
      · rw [hun.2.1]; exact hTitle0.2
      · rw [hun.2.2]; exact hPlan0
    · intro h; rw [hstg] at h; simp at h
  · have hun := empath_untouched (oracle.headD "") s0
    rw [show (10 : Nat) = 9 + 1 from rfl, runChain_step 9 _ _ _ _ hg,
      show (9 : Nat) = 8 + 1 from rfl]
    set mid := (execNode Node.empath (oracle.headD "") s0).state with hmid
    set rest := if (execNode Node.empath (oracle.headD "") s0).calledModel = true
      then oracle.tail else oracle with hrest
    have hfm : optTruthy mid.final_title = false := by rw [hmid, hun.1]; exact hTitle0.1
    have hwm : mid.wants_title_suggestions ≠ some false := by rw [hmid, hun.2.1]; exact hTitle0.2
    have hplm : optTruthy mid.book_plan = false := by rw [hmid, hun.2.2]; exact hPlan0
    have hg2 : (execNode Node.title_generator (rest.headD "") mid).goto = none :=
      title_stay (rest.headD "") mid hfm hwm
    rw [runChain_stop 8 _ _ _ hg2]
    have hstg2 : (execNode Node.title_generator (rest.headD "") mid).state.stage
        = some "title_generator" := by
      rcases title_shape (rest.headD "") mid with ⟨_, h2⟩ | ⟨hgg, _⟩
      · exact h2
      · rw [hg2] at hgg; exact absurd hgg (by simp)
    have hun2 := title_untouched (rest.headD "") mid
    refine ⟨by simp, ?_⟩
    show StageInv (execNode Node.title_generator (rest.headD "") mid).state
    refine ⟨Or.inr (Or.inr (Or.inr (Or.inl hstg2))), ?_, ?_, ?_⟩
    · intro hOr
      exfalso
      rcases hOr with h | h <;> rw [hstg2] at h <;> simp at h
    · intro h; rw [hstg2] at h; simp at h
    · intro _
      rw [hun2.1]; exact hplm

/-- Turn bound and invariant preservation from the title stage. -/
theorem turn_from_title (s : BookAgentState) (u : String) (oracle : List String)
    (hmap : stage_entry_map (route_entry s) = some (some Node.title_generator))
    (hPlan : optTruthy s.book_plan = false) :
    (runTurn u oracle s).2 ≤ 2 ∧ StageInv (runTurn u oracle s).1 := by
  rw [runTurn_eq u oracle s Node.title_generator hmap]
  set s0 := { s with messages := s.messages ++ [ChatMessage.mk Role.user u] } with hs0
  have hPlan0 : optTruthy s0.book_plan = false := hPlan
  rcases title_shape (oracle.headD "") s0 with ⟨hg, hstg⟩ | ⟨hg, hstg⟩
  · rw [show (10 : Nat) = 9 + 1 from rfl, runChain_stop 9 _ _ _ hg]
    have hun := title_untouched (oracle.headD "") s0
    refine ⟨by simp, ?_⟩
    show StageInv (execNode Node.title_generator (oracle.headD "") s0).state
    refine ⟨Or.inr (Or.inr (Or.inr (Or.inl hstg))), ?_, ?_, ?_⟩
    · intro hOr
      exfalso
      rcases hOr with h | h <;> rw [hstg] at h <;> simp at h
    · intro h; rw [hstg] at h; simp at h
    · intro _
      rw [hun.1]; exact hPlan0
  · have hun := title_untouched (oracle.headD "") s0
    rw [show (10 : Nat) = 9 + 1 from rfl, runChain_step 9 _ _ _ _ hg,
      show (9 : Nat) = 8 + 1 from rfl]
    set mid := (execNode Node.title_generator (oracle.headD "") s0).state with hmid
    set rest := if (execNode Node.title_generator (oracle.headD "") s0).calledModel = true
      then oracle.tail else oracle with hrest
    have hplm : optTruthy mid.book_plan = false := by rw [hmid, hun.1]; exact hPlan0
    have hg2 : (execNode Node.planner (rest.headD "") mid).goto = none :=
      (planner_stay (rest.headD "") mid hplm).1
    rw [runChain_stop 8 _ _ _ hg2]
    have hstg2 : (execNode Node.planner (rest.headD "") mid).state.stage = some "planner" :=
      (planner_stay (rest.headD "") mid hplm).2
    refine ⟨by simp, ?_⟩
    show StageInv (execNode Node.planner (rest.headD "") mid).state
    refine ⟨Or.inr (Or.inr (Or.inr (Or.inr (Or.inl hstg2)))), ?_, ?_, ?_⟩
    · intro hOr
      exfalso
      rcases hOr with h | h <;> rw [hstg2] at h <;> simp at h
    · intro h; rw [hstg2] at h; simp at h
    · intro h; rw [hstg2] at h; simp at h

/-- Turn bound and invariant preservation from the planning stage. -/
theorem turn_from_planner (s : BookAgentState) (u : String) (oracle : List String)
    (hmap : stage_entry_map (route_entry s) = some (some Node.planner)) :
    (runTurn u oracle s).2 ≤ 2 ∧ StageInv (runTurn u oracle s).1 := by
  rw [runTurn_eq u oracle s Node.planner hmap]
  set s0 := { s with messages := s.messages ++ [ChatMessage.mk Role.user u] } with hs0
  rcases planner_shape (oracle.headD "") s0 with ⟨hg, hstg⟩ | ⟨hg, hstg⟩
  · rw [show (10 : Nat) = 9 + 1 from rfl, runChain_stop 9 _ _ _ hg]
    refine ⟨by simp, ?_⟩
    show StageInv (execNode Node.planner (oracle.headD "") s0).state
    refine ⟨Or.inr (Or.inr (Or.inr (Or.inr (Or.inl hstg)))), ?_, ?_, ?_⟩
    · intro hOr
      exfalso
      rcases hOr with h | h <;> rw [hstg] at h <;> simp at h
    · intro h; rw [hstg] at h; simp at h
    · intro h; rw [hstg] at h; simp at h
  · rw [show (10 : Nat) = 9 + 1 from rfl, runChain_step 9 _ _ _ _ hg,
      show (9 : Nat) = 8 + 1 from rfl]
    set mid := (execNode Node.planner (oracle.headD "") s0).state with hmid
    set rest := if (execNode Node.planner (oracle.headD "") s0).calledModel = true
      then oracle.tail else oracle with hrest
    have hg2 : (execNode Node.writer (rest.headD "") mid).goto = none :=
      (writer_shape (rest.headD "") mid).1
    rw [runChain_stop 8 _ _ _ hg2]
    have hstg2 := (writer_shape (rest.headD "") mid).2
    refine ⟨by simp, ?_⟩
    show StageInv (execNode Node.writer (rest.headD "") mid).state
    rcases hstg2 with h2 | h2
    · refine ⟨Or.inr (Or.inr (Or.inr (Or.inr (Or.inr (Or.inl h2))))), ?_, ?_, ?_⟩
      · intro hOr
        exfalso
        rcases hOr with h | h <;> rw [h2] at h <;> simp at h
      · intro h; rw [h2] at h; simp at h
      · intro h; rw [h2] at h; simp at h
    · refine ⟨Or.inr (Or.inr (Or.inr (Or.inr (Or.inr (Or.inr h2))))), ?_, ?_, ?_⟩
      · intro hOr
        exfalso
        rcases hOr with h | h <;> rw [h2] at h <;> simp at h
      · intro h; rw [h2] at h; simp at h
      · intro h; rw [h2] at h; simp at h

/-- Turn bound and invariant preservation from the writing stage. -/
theorem turn_from_writer (s : BookAgentState) (u : String) (oracle : List String)
    (hmap : stage_entry_map (route_entry s) = some (some Node.writer)) :
    (runTurn u oracle s).2 ≤ 2 ∧ StageInv (runTurn u oracle s).1 := by
  rw [runTurn_eq u oracle s Node.writer hmap]
  set s0 := { s with messages := s.messages ++ [ChatMessage.mk Role.user u] } with hs0
  have hg : (execNode Node.writer (oracle.headD "") s0).goto = none :=
    (writer_shape (oracle.headD "") s0).1
  rw [show (10 : Nat) = 9 + 1 from rfl, runChain_stop 9 _ _ _ hg]
  refine ⟨by simp, ?_⟩
  show StageInv (execNode Node.writer (oracle.headD "") s0).state
  rcases (writer_shape (oracle.headD "") s0).2 with h2 | h2
  · refine ⟨Or.inr (Or.inr (Or.inr (Or.inr (Or.inr (Or.inl h2))))), ?_, ?_, ?_⟩
    · intro hOr
      exfalso
      rcases hOr with h | h <;> rw [h2] at h <;> simp at h
    · intro h; rw [h2] at h; simp at h
    · intro h; rw [h2] at h; simp at h
  · refine ⟨Or.inr (Or.inr (Or.inr (Or.inr (Or.inr (Or.inr h2))))), ?_, ?_, ?_⟩
    · intro hOr
      exfalso
      rcases hOr with h | h <;> rw [h2] at h <;> simp at h
    · intro h; rw [h2] at h; simp at h
    · intro h; rw [h2] at h; simp at h



/-- The fresh conversation state satisfies the stage invariant. -/
theorem stageInv_init : StageInv initState := by
  refine ⟨Or.inl rfl, ?_, ?_, ?_⟩
  · intro _
    exact ⟨rfl, ⟨rfl, by simp [initState]⟩, rfl⟩
  · intro h
    rw [show initState.stage = none from rfl] at h
    exact absurd h (by simp)
  · intro h
    rw [show initState.stage = none from rfl] at h
    exact absurd h (by simp)

/-- One whole turn from an invariant state executes at most two nodes and
preserves the invariant. -/
theorem turn_bound_inv (s : BookAgentState) (hInv : StageInv s) (u : String)
    (oracle : List String) :
    (runTurn u oracle s).2 ≤ 2 ∧ StageInv (runTurn u oracle s).1 := by
  obtain ⟨hstages, hA, hB, hC⟩ := hInv
  rcases hstages with hs | hs | hs | hs | hs | hs | hs
  · obtain ⟨hprof, hTitle, hPlan⟩ := hA (Or.inl hs)
    exact turn_from_bio s u oracle
      (by rw [route_of_no_stage s hs]; exact sem_biographer) hprof hTitle hPlan
  · obtain ⟨hprof, hTitle, hPlan⟩ := hA (Or.inr hs)
    exact turn_from_bio s u oracle
      (by rw [route_of_stage s _ hs]; exact sem_biographer) hprof hTitle hPlan
  · obtain ⟨hTitle, hPlan⟩ := hB hs
    exact turn_from_empath s u oracle
      (by rw [route_of_stage s _ hs]; exact sem_empath) hTitle hPlan
  · exact turn_from_title s u oracle
      (by rw [route_of_stage s _ hs]; exact sem_title) (hC hs)
  · exact turn_from_planner s u oracle
      (by rw [route_of_stage s _ hs]; exact sem_planner)
  · exact turn_from_writer s u oracle
      (by rw [route_of_stage s _ hs]; exact sem_writer)
  · rw [runTurn_end u oracle s (by rw [route_of_stage s _ hs]; exact sem_complete)]
    refine ⟨by simp, ?_⟩
    show StageInv { s with messages := s.messages ++ [ChatMessage.mk Role.user u] }
    exact ⟨Or.inr (Or.inr (Or.inr (Or.inr (Or.inr (Or.inr hs))))),
      fun hOr => hA hOr, hB, hC⟩

/-- Every reachable state satisfies the stage invariant. -/
theorem reachable_inv (s : BookAgentState) (h : Reachable s) : StageInv s := by
  induction h with
  | init => exact stageInv_init
  | step s u oracle _ ih => exact (turn_bound_inv s ih u oracle).2

/-- C7: from every reachable state, a turn executes at most two stage nodes,
and when the routed node does not hand off, exactly one node executes; the
second node (when any) is the hand-off successor by construction of the
chain. -/
theorem c7_nodes_per_turn (s : BookAgentState) (h : Reachable s) (u : String)
    (oracle : List String) :
    (runTurn u oracle s).2 ≤ 2 ∧
    (∀ n, stage_entry_map (route_entry s) = some (some n) →
      (execNode n (oracle.headD "")
        { s with messages := s.messages ++ [ChatMessage.mk Role.user u] }).goto = none →
      (runTurn u oracle s).2 = 1) := by
  refine ⟨(turn_bound_inv s (reachable_inv s h) u oracle).1, ?_⟩
  intro n hmap hgoto
  rw [runTurn_eq u oracle s n hmap, show (10 : Nat) = 9 + 1 from rfl,
    runChain_stop 9 _ _ _ hgoto]

/-- C7 witness: the very first turn of a conversation runs exactly one
node. -/
theorem c7_nodes_per_turn_witness :
    (runTurn "Draft One" ["q"] initState).2 ≤ 2 ∧
    (runTurn "Draft One" ["q"] initState).2 = 1 :=
  ⟨(c7_nodes_per_turn initState Reachable.init "Draft One" ["q"]).1,
   (c7_nodes_per_turn initState Reachable.init "Draft One" ["q"]).2
     Node.biographer rfl (by decide)⟩


end TalkToBook
